import Mathlib

/-
Verification of the GeoOptima darkstore facility-location optimizer
(src/backend/app/optimizer_darkstores.py) against its specification.

The source module has three layers, all embedded here:

1. Distance layer: `_haversine_minutes` and `_build_travel_matrix`.
   Python floats are modelled as real numbers so the square root in the
   geodesic formula is exact.  The PostGIS round trips are external I/O;
   their outcome is modelled by `PgOutcome`: either the whole loop throws
   (`throws`, matching the single try/except around the full matrix loop)
   or every pair query returns a scalar `Option ℝ` (`results`, with `none`
   standing for SQL NULL, which the source maps through `float(res or 0.0)`).

2. MILP layer: the coverage mask, the constraint set and the objective that
   `solve_darkstores` hands to the external CBC solver.  Binary decision
   variables are Booleans; float coefficients are rationals.  The external
   solver itself is not part of the repository, so the values it reports
   are parameters (`vy`, `vx`), and "solved plan" facts are stated under the
   hypothesis that the 0.5-rounded reported values satisfy the model
   constraints.

3. Extraction layer: `solve_darkstores`'s input resolution (STATE fallback,
   ValueError cases modelled as `Except.error` with the source's message
   text), the per-customer first-hit assignment scan with `break`, and the
   plan/stats construction.  The travel matrix enters this layer as a
   parameter `travel : Nat → Nat → ℚ` (the source computes it with the
   distance layer; the two layers are joined by the solver call that is
   external to the repository).
-/

namespace GeoOptima

/-- Longitude/latitude pair as consumed by the travel-matrix builder. -/
structure Coord where
  lon : ℝ
  lat : ℝ

/-- Positional row access, mirroring dataframe row iteration (indices are
0..n-1 after `reset_index(drop=True)`). -/
noncomputable def nthCoord (l : List Coord) (i : Nat) : Coord :=
  l.getD i ⟨0, 0⟩

/-- Embedding of `_haversine_minutes` (optimizer_darkstores.py:25-29):
`dx = (lon1-lon2)*111`, `dy = (lat1-lat2)*111`,
`return (math.hypot(dx, dy) / speed_kmph) * 60`, with
`math.hypot dx dy = sqrt (dx^2 + dy^2)`. -/
noncomputable def haversine_minutes (lon1 lat1 lon2 lat2 speed_kmph : ℝ) : ℝ :=
  let dx := (lon1 - lon2) * 111
  let dy := (lat1 - lat2) * 111
  Real.sqrt (dx ^ 2 + dy ^ 2) / speed_kmph * 60

/-- Outcome of the PostGIS branch of `_build_travel_matrix`.  `throws`
models any exception escaping the query loop (caught once, around the whole
matrix); `results q` models a completed loop in which the scalar returned
for pair `(i, j)` is `q i j`, `none` standing for SQL NULL. -/
inductive PgOutcome where
  | throws
  | results (q : Nat → Nat → Option ℝ)

/-- Embedding of one PostGIS pair entry (optimizer_darkstores.py:57-65):
`dist_km = float(res or 0.0)` (NULL becomes 0.0) and
`travel[(i, j)] = (dist_km / speed_kmph) * 60.0`. -/
noncomputable def postgisEntry (res : Option ℝ) (speed_kmph : ℝ) : ℝ :=
  let dist_km := res.getD 0
  dist_km / speed_kmph * 60

/-- Embedding of `_build_travel_matrix` (optimizer_darkstores.py:32-75) as
the association list of its dict entries in loop order.  The
`use_postgis=False` branch (lines 36-39) and the except-branch fallback
(lines 72-75) are the same comprehension over `_haversine_minutes`, written
out separately here exactly as in the source. -/
noncomputable def build_travel_matrix (cands custs : List Coord)
    (speed_kmph : ℝ) (use_postgis : Bool) (pg : PgOutcome) :
    List ((Nat × Nat) × ℝ) :=
  if !use_postgis then
    (List.range cands.length).flatMap (fun i =>
      (List.range custs.length).map (fun j =>
        ((i, j), haversine_minutes (nthCoord cands i).lon (nthCoord cands i).lat
          (nthCoord custs j).lon (nthCoord custs j).lat speed_kmph)))
  else
    match pg with
    | .results q =>
        (List.range cands.length).flatMap (fun i =>
          (List.range custs.length).map (fun j =>
            ((i, j), postgisEntry (q i j) speed_kmph)))
    | .throws =>
        (List.range cands.length).flatMap (fun i =>
          (List.range custs.length).map (fun j =>
            ((i, j), haversine_minutes (nthCoord cands i).lon (nthCoord cands i).lat
              (nthCoord custs j).lon (nthCoord custs j).lat speed_kmph)))

/-- Dict lookup `travel[(i, j)]` on the association-list form of the matrix
(keys are unique, so first match is the entry). -/
def matrixLookup (m : List ((Nat × Nat) × ℝ)) (i j : Nat) : Option ℝ :=
  (m.find? (fun e => e.1 == (i, j))).map (fun e => e.2)

/-- Concrete one-point coordinate list used to instantiate matrix theorems. -/
noncomputable def coordOne : List Coord := [⟨0, 0⟩]

/-- A candidate site row after column normalization in `solve_darkstores`
(optimizer_darkstores.py:117-134): id, coordinates and a fixed cost (the
`fixed_cost` column, filled with `store_fixed_cost` when absent). -/
structure Cand where
  id : Int
  lon : ℚ
  lat : ℚ
  fixed_cost : ℚ
deriving DecidableEq, Inhabited

/-- A customer row after column normalization: id, coordinates and a demand
(the `demand` column, filled with 1 when absent). -/
structure Cust where
  id : Int
  lon : ℚ
  lat : ℚ
  demand : ℚ
deriving DecidableEq, Inhabited

/-- Positional row access `c.xxx[i]` on the reset-index dataframe. -/
def nthCand (l : List Cand) (i : Nat) : Cand := l.getD i default

/-- Positional row access `u.xxx[j]` on the reset-index dataframe. -/
def nthCust (l : List Cust) (j : Nat) : Cust := l.getD j default

/-- Value of a binary decision variable (0 or 1) as a rational, for the
linear expressions of the model. -/
def bq (b : Bool) : ℚ := if b then 1 else 0

/-- Sum over a Python `range(n)` loop index. -/
def qsum (n : Nat) (f : Nat → ℚ) : ℚ := ((List.range n).map f).sum

/-- Embedding of the coverage mask (optimizer_darkstores.py:142-145):
`coverable[(i, j)] = int(travel[(i, j)] <= max_time_min)`, as the Boolean
it is used as at line 170. -/
def coverable (travel : Nat → Nat → ℚ) (max_time_min : ℚ) (i j : Nat) : Bool :=
  decide (travel i j ≤ max_time_min)

/-- Constraint block of line 164-165: for every customer `j`,
`lpSum(x[(i, j)] for i in range(len(c))) == 1`. -/
def assignExactlyOne (nc nu : Nat) (x : Nat → Nat → Bool) : Prop :=
  ∀ j ∈ List.range nu, qsum nc (fun i => bq (x i j)) = 1

/-- Constraint block of lines 170-171: whenever `coverable[(i, j)]` is
falsy, `x[(i, j)] == 0`. -/
def coverageGating (nc nu : Nat) (travel : Nat → Nat → ℚ) (max_time_min : ℚ)
    (x : Nat → Nat → Bool) : Prop :=
  ∀ i ∈ List.range nc, ∀ j ∈ List.range nu,
    coverable travel max_time_min i j = false → bq (x i j) = 0

/-- Constraint block of line 172: `x[(i, j)] <= y[i]` for every pair. -/
def openGating (nc nu : Nat) (x : Nat → Nat → Bool) (y : Nat → Bool) : Prop :=
  ∀ i ∈ List.range nc, ∀ j ∈ List.range nu, bq (x i j) ≤ bq (y i)

/-- Constraint block of lines 175-176: for every site `i`,
`lpSum(u.demand[j] * x[(i, j)] for j) <= store_capacity * y[i]`. -/
def capacityLimit (nc nu : Nat) (demand : Nat → ℚ) (store_capacity : ℚ)
    (x : Nat → Nat → Bool) (y : Nat → Bool) : Prop :=
  ∀ i ∈ List.range nc,
    qsum nu (fun j => demand j * bq (x i j)) ≤ store_capacity * bq (y i)

/-- The full constraint set that `solve_darkstores` adds to the MILP
(optimizer_darkstores.py:163-176). -/
def modelConstraints (nc nu : Nat) (travel : Nat → Nat → ℚ)
    (max_time_min store_capacity : ℚ) (demand : Nat → ℚ)
    (y : Nat → Bool) (x : Nat → Nat → Bool) : Prop :=
  assignExactlyOne nc nu x
    ∧ coverageGating nc nu travel max_time_min x
    ∧ openGating nc nu x y
    ∧ capacityLimit nc nu demand store_capacity x y

/-- Embedding of the objective (optimizer_darkstores.py:157-161):
`lpSum(c.fixed_cost[i] * y[i] for i) + lpSum(0.01 * travel[(i, j)] * x[(i, j)] for i for j)`. -/
def objective (c : List Cand) (u : List Cust) (travel : Nat → Nat → ℚ)
    (y : Nat → Bool) (x : Nat → Nat → Bool) : ℚ :=
  qsum c.length (fun i => (nthCand c i).fixed_cost * bq (y i))
    + qsum c.length (fun i =>
        qsum u.length (fun j => (0.01 : ℚ) * travel i j * bq (x i j)))

/-- The objective as the spec words it (spec §4.3): minimize
`Σ_i fixed_cost[i]·open[i] + Σ_{i,j} 0.01·travel[i,j]·assign[i,j]`, with
the pair sum taken over the set of (site, customer) pairs and the travel
weight being one hundredth. -/
def specObjective (c : List Cand) (u : List Cust) (travel : Nat → Nat → ℚ)
    (y : Nat → Bool) (x : Nat → Nat → Bool) : ℚ :=
  (∑ i in Finset.range c.length, (nthCand c i).fixed_cost * bq (y i))
    + ∑ p in Finset.range c.length ×ˢ Finset.range u.length,
        1 / 100 * travel p.1 p.2 * bq (x p.1 p.2)

/-- The 0.5 rounding the solution extractor applies to a solver-reported
variable value (`value(...) > 0.5`, optimizer_darkstores.py:185,193). -/
def gtHalf (v : ℚ) : Bool := decide ((0.5 : ℚ) < v)

/-- Site open flags after rounding the reported `y` values. -/
def roundedOpen (vy : Nat → ℚ) : Nat → Bool := fun i => gtHalf (vy i)

/-- Assignment flags after rounding the reported `x` values. -/
def roundedAssign (vx : Nat → Nat → ℚ) : Nat → Nat → Bool :=
  fun i j => gtHalf (vx i j)

/-- One entry of the plan's `assignments` list
(optimizer_darkstores.py:194-200). -/
structure Assignment where
  customer_id : Int
  store_id : Int
  travel_min : ℚ
  lon : ℚ
  lat : ℚ
deriving DecidableEq, Inhabited

/-- One entry of the plan's `stores` list (optimizer_darkstores.py:206-215);
`open_flag` is the dict key "open". -/
structure StoreOut where
  id : Int
  lon : ℚ
  lat : ℚ
  open_flag : Bool
  fixed_cost : ℚ
deriving DecidableEq, Inhabited

/-- The plan's `stats` dict (optimizer_darkstores.py:217-221). -/
structure Stats where
  stores_open : Nat
  avg_travel_min : ℚ
  total_customers : Nat
deriving DecidableEq, Inhabited

/-- The plan returned by `solve_darkstores` (optimizer_darkstores.py:205-222). -/
structure Plan where
  stores : List StoreOut
  assignments : List Assignment
  stats : Stats
deriving DecidableEq, Inhabited

/-- The inner scan of the extraction loop (optimizer_darkstores.py:192-201):
the first site index whose reported assignment value exceeds 0.5 (the
`break` makes it first-hit), or `none` when no site qualifies. -/
def firstAssigned (nc : Nat) (vx : Nat → Nat → ℚ) (j : Nat) : Option Nat :=
  (List.range nc).find? (fun i => gtHalf (vx i j))

/-- The record appended for customer `j` served from site `i`
(optimizer_darkstores.py:194-200). -/
def mkAssignment (c : List Cand) (u : List Cust) (travel : Nat → Nat → ℚ)
    (j i : Nat) : Assignment :=
  { customer_id := (nthCust u j).id
    store_id := (nthCand c i).id
    travel_min := travel i j
    lon := (nthCust u j).lon
    lat := (nthCust u j).lat }

/-- Embedding of the assignment extraction loop
(optimizer_darkstores.py:190-201): for each customer in order, append the
entry of the first realized site if any, silently skipping customers with
no realized assignment. -/
def extractAssignments (c : List Cand) (u : List Cust)
    (travel : Nat → Nat → ℚ) (vx : Nat → Nat → ℚ) : List Assignment :=
  (List.range u.length).filterMap (fun j =>
    (firstAssigned c.length vx j).map (mkAssignment c u travel j))

/-- The module-level `STATE` dict (optimizer_darkstores.py:18), restricted
to the two keys `solve_darkstores` reads; a `none` field models an absent
key. -/
structure GlobalState where
  candidates : Option (List Cand)
  customers : Option (List Cust)

/-- Embedding of the input resolution (optimizer_darkstores.py:103-109):
if either dataframe is `None`, use STATE when it has both keys, else raise
`ValueError` ("No data provided or available in STATE."). -/
def resolveInputs (state : GlobalState) (candidates_df : Option (List Cand))
    (customers_df : Option (List Cust)) :
    Except String (List Cand × List Cust) :=
  if candidates_df.isNone || customers_df.isNone then
    match state.candidates, state.customers with
    | some cs, some us => Except.ok (cs, us)
    | _, _ => Except.error "No data provided or available in STATE."
  else
    Except.ok (candidates_df.getD [], customers_df.getD [])

/-- Embedding of `solve_darkstores` (optimizer_darkstores.py:82-222).
The travel matrix enters as the parameter `travel` (the source builds it
with `_build_travel_matrix`); `max_time_min` and `store_capacity` shape the
model handed to the external CBC solver, whose reported variable values
enter as `vy` and `vx`.  The two `raise ValueError` statements are the
`Except.error` results; after them the source unconditionally builds and
returns the plan dict. -/
def solve_darkstores (state : GlobalState)
    (candidates_df : Option (List Cand)) (customers_df : Option (List Cust))
    (max_time_min store_capacity : ℚ) (travel : Nat → Nat → ℚ)
    (vy : Nat → ℚ) (vx : Nat → Nat → ℚ) : Except String Plan :=
  match resolveInputs state candidates_df customers_df with
  | .error e => .error e
  | .ok (c, u) =>
    if c.isEmpty || u.isEmpty then
      .error "Candidate or customer dataset is empty."
    else
      let opened := (List.range c.length).filter (fun i => gtHalf (vy i))
      let assignments := extractAssignments c u travel vx
      let avg_t := (assignments.map Assignment.travel_min).sum
        / ((max 1 assignments.length : Nat) : ℚ)
      .ok {
        stores := (List.range c.length).map (fun i =>
          { id := (nthCand c i).id
            lon := (nthCand c i).lon
            lat := (nthCand c i).lat
            open_flag := opened.contains i
            fixed_cost := (nthCand c i).fixed_cost })
        assignments := assignments
        stats := {
          stores_open := opened.length
          avg_travel_min := avg_t
          total_customers := u.length } }

/-- Whether a result is a returned plan rather than a raised error. -/
def isOkE (r : Except String Plan) : Bool :=
  match r with
  | .ok _ => true
  | .error _ => false

/-- The assignments list of a returned plan (empty on error). -/
def assignmentsOf (r : Except String Plan) : List Assignment :=
  match r with
  | .ok p => p.assignments
  | .error _ => []

/-- Concrete data for instances: a site at the origin with unit cost. -/
def candA : Cand := ⟨1, 0, 0, 1⟩

/-- Concrete data: a second site at (1, 1) with unit cost. -/
def candB : Cand := ⟨2, 1, 1, 1⟩

/-- Concrete data: a customer at the origin with unit demand. -/
def custA : Cust := ⟨7, 0, 0, 1⟩

/-- Concrete data: a site with a negative fixed cost (violates the spec's
precondition, accepted by the code). -/
def candBad : Cand := ⟨1, 0, 0, -1⟩

/-- Concrete data: a customer with a negative demand (violates the spec's
precondition, accepted by the code). -/
def custBad : Cust := ⟨2, 0, 0, -3⟩

/-- Concrete travel matrix: all pairs zero minutes apart. -/
def tZero : Nat → Nat → ℚ := fun _ _ => 0

/-- Concrete travel matrix: all pairs five minutes apart. -/
def tFive : Nat → Nat → ℚ := fun _ _ => 5

/-- A `STATE` with neither key set. -/
def stEmpty : GlobalState := ⟨none, none⟩

/-- A `STATE` holding one candidate and one customer. -/
def stFull : GlobalState := ⟨some [candA], some [custA]⟩

/-- The toy one-site one-customer model with travel time 5 and
`max_time_min = 1` has no feasible solution: the exactly-one constraint
and the coverage gating contradict each other. -/
def toyInfeasible : Prop :=
  ∀ (y : Nat → Bool) (x : Nat → Nat → Bool),
    ¬ modelConstraints 1 1 tFive 1 200 (fun _ => 1) y x

end GeoOptima

namespace GeoOptima

/-- Helper: a nested loop of keyed entries is the key list mapped through
the entry maker. -/
theorem nested_entries_eq_map {β : Type} (nc nu : Nat) (f : Nat → Nat → β) :
    (List.range nc).flatMap (fun i =>
        (List.range nu).map (fun j => ((i, j), f i j)))
      = ((List.range nc).flatMap (fun i =>
          (List.range nu).map (fun j => (i, j)))).map
            (fun p => (p, f p.1 p.2)) := by
  induction List.range nc with
  | nil => rfl
  | cons a t ih =>
    simp only [List.flatMap_cons, List.map_append, List.map_map, ih]
    rfl

/-- Helper: `find?` on a list of entries keyed by the elements of `keys`
returns the entry of any key that occurs in `keys`. -/
theorem find?_keyed_map {K β : Type} [DecidableEq K] [BEq K] [LawfulBEq K]
    (keys : List K) (g : K → β) (k : K) (hk : k ∈ keys) :
    (keys.map (fun x => (x, g x))).find? (fun e => e.1 == k) = some (k, g k) := by
  induction keys with
  | nil => simp at hk
  | cons a t ih =>
    rw [List.map_cons]
    by_cases hak : a = k
    · subst hak
      rw [List.find?_cons_of_pos]
      simp
    · rw [List.find?_cons_of_neg]
      · exact ih (by rcases List.mem_cons.mp hk with h | h; exact absurd h.symm hak; exact h)
      · simp [hak]

/-- Helper: key membership in the Cartesian key list. -/
theorem mem_pair_keys (nc nu i j : Nat) (hi : i < nc) (hj : j < nu) :
    (i, j) ∈ (List.range nc).flatMap (fun a =>
      (List.range nu).map (fun b => (a, b))) := by
  refine List.mem_flatMap.mpr ⟨i, List.mem_range.mpr hi, ?_⟩
  exact List.mem_map.mpr ⟨j, List.mem_range.mpr hj, rfl⟩

/-- Helper: a binary variable value is non-negative. -/
theorem bq_nonneg (b : Bool) : 0 ≤ bq b := by
  cases b <;> norm_num [bq]

/-- Helper: a binary variable value vanishes exactly on `false`. -/
theorem bq_eq_zero_iff (b : Bool) : bq b = 0 ↔ b = false := by
  cases b <;> norm_num [bq]

/-- Helper: the sum of binary indicator values over a loop equals the
number of loop indices whose flag is set. -/
theorem sum_bq_eq_filter_length (p : Nat → Bool) (l : List Nat) :
    (l.map (fun i => bq (p i))).sum = ((l.filter p).length : ℚ) := by
  induction l with
  | nil => rfl
  | cons a t ih =>
    rw [List.map_cons, List.sum_cons, ih, List.filter_cons]
    cases h : p a
    · rw [if_neg (by simp [h])]
      norm_num [bq]
    · rw [if_pos (by simp [h]), List.length_cons]
      push_cast
      norm_num [bq]
      ring

/-- Helper: `find?` succeeds whenever some list element satisfies the
predicate. -/
theorem find?_isSome_of_mem {α : Type} (l : List α) (p : α → Bool) (a : α)
    (hm : a ∈ l) (hp : p a = true) : (l.find? p).isSome := by
  induction l with
  | nil => simp at hm
  | cons b t ih =>
    rcases List.mem_cons.mp hm with rfl | hmt
    · simp [List.find?, hp]
    · cases hb : p b
      · simpa [List.find?, hb] using ih hmt
      · simp [List.find?, hb]

/-- Helper: a `filterMap` whose function hits on every element is a `map`. -/
theorem filterMap_eq_map_of_forall_some {α β : Type} (l : List α)
    (g : α → Option β) (v : α → β) (h : ∀ a ∈ l, g a = some (v a)) :
    l.filterMap g = l.map v := by
  induction l with
  | nil => rfl
  | cons a t ih =>
    rw [List.filterMap_cons, h a (List.mem_cons_self a t), List.map_cons,
      ih (fun b hb => h b (List.mem_cons_of_mem a hb))]

/-- Helper: mapping over a list is mapping its `getD` accessor over the
index range. -/
theorem map_eq_range_getD {α β : Type} (l : List α) (f : α → β) (d : α) :
    l.map f = (List.range l.length).map (fun i => f (l.getD i d)) := by
  induction l with
  | nil => rfl
  | cons a t ih =>
    simp only [List.map_cons, List.length_cons, List.range_succ_eq_map,
      List.map_map]
    refine congrArg (f a :: ·) ?_
    rw [ih]
    rfl

/-- Helper: loop sums agree with `Finset.range` sums. -/
theorem qsum_eq_finset_sum (n : Nat) (f : Nat → ℚ) :
    qsum n f = ∑ i in Finset.range n, f i := by
  induction n with
  | zero => rfl
  | succ m ih =>
    rw [qsum, List.range_succ, List.map_append, List.sum_append,
      Finset.sum_range_succ, ← ih, qsum]
    simp

/-- Helper: a loop sum of pointwise-zero terms is zero. -/
theorem qsum_eq_zero_of_forall (n : Nat) (f : Nat → ℚ)
    (h : ∀ j ∈ List.range n, f j = 0) : qsum n f = 0 := by
  rw [qsum]
  refine List.sum_eq_zero ?_
  intro q hq
  rcases List.mem_map.mp hq with ⟨j, hj, rfl⟩
  exact h j hj

/-- Helper: input resolution either fails with the missing-data message or
yields a candidate/customer pair. -/
theorem resolveInputs_cases (state : GlobalState)
    (cd : Option (List Cand)) (ud : Option (List Cust)) :
    resolveInputs state cd ud
        = Except.error "No data provided or available in STATE."
      ∨ ∃ c u, resolveInputs state cd ud = Except.ok (c, u) := by
  rw [resolveInputs]
  by_cases h : cd.isNone || ud.isNone
  · rw [if_pos h]
    cases hc : state.candidates with
    | none => left; rfl
    | some cs =>
      cases hu : state.customers with
      | none => left; rfl
      | some us => right; exact ⟨cs, us, rfl⟩
  · rw [if_neg h]
    right
    exact ⟨cd.getD [], ud.getD [], rfl⟩

/-- C5: the minimized objective is the sum over sites of
`fixed_cost[i]*open[i]` plus the sum over all (site, customer) pairs of
`0.01*travel[(i,j)]*assign[(i,j)]`, the travel term weighted by exactly
the constant 0.01 (= 1/100). -/
theorem objective_matches_spec (c : List Cand) (u : List Cust)
    (travel : Nat → Nat → ℚ) (y : Nat → Bool) (x : Nat → Nat → Bool) :
    objective c u travel y x = specObjective c u travel y x := by
  rw [objective, specObjective, Finset.sum_product,
    qsum_eq_finset_sum c.length, qsum_eq_finset_sum c.length]
  congr 1
  refine Finset.sum_congr rfl (fun i _ => ?_)
  rw [qsum_eq_finset_sum]
  refine Finset.sum_congr rfl (fun j _ => ?_)
  norm_num

/-- C6: forcing the precise (PostGIS) strategy to fail with any exception
yields, entry for entry, the same travel matrix as directly requesting the
geodesic strategy with `use_postgis=False`, and that matrix is entirely the
haversine comprehension — the two strategies are never mixed. -/
theorem pg_failure_matrix_equals_geodesic (cands custs : List Coord)
    (speed : ℝ) (pg : PgOutcome) :
    build_travel_matrix cands custs speed true PgOutcome.throws
        = build_travel_matrix cands custs speed false pg
      ∧ build_travel_matrix cands custs speed true PgOutcome.throws
        = (List.range cands.length).flatMap (fun i =>
            (List.range custs.length).map (fun j =>
              ((i, j), haversine_minutes (nthCoord cands i).lon
                (nthCoord cands i).lat (nthCoord custs j).lon
                (nthCoord custs j).lat speed))) :=
  ⟨rfl, rfl⟩

/-- C7: the geodesic estimate equals the Euclidean norm of the per-axis
degree deltas scaled by 111 km per degree, divided by the speed and
converted to minutes. -/
theorem haversine_closed_form (lon1 lat1 lon2 lat2 speed : ℝ) :
    haversine_minutes lon1 lat1 lon2 lat2 speed
      = Real.sqrt ((111 * (lon1 - lon2)) ^ 2 + (111 * (lat1 - lat2)) ^ 2)
          / speed * 60 := by
  unfold haversine_minutes
  ring_nf

/-- C9: when a PostGIS pair query returns NULL, the matrix entry of that
pair is 0.0 minutes, and the pair is therefore within any non-negative
`max_time_min` bound; the geodesic fallback is not involved (the lookup is
inside the `results` branch). -/
theorem postgis_null_pair_gives_zero (cands custs : List Coord) (speed : ℝ)
    (q : Nat → Nat → Option ℝ) (i j : Nat)
    (hi : i < cands.length) (hj : j < custs.length) (hq : q i j = none) :
    matrixLookup (build_travel_matrix cands custs speed true
        (PgOutcome.results q)) i j = some 0
      ∧ ∀ M : ℝ, 0 ≤ M → ∀ t : ℝ,
          matrixLookup (build_travel_matrix cands custs speed true
            (PgOutcome.results q)) i j = some t → t ≤ M := by
  have hmat : build_travel_matrix cands custs speed true (PgOutcome.results q)
      = ((List.range cands.length).flatMap (fun a =>
          (List.range custs.length).map (fun b => (a, b)))).map
            (fun p => (p, postgisEntry (q p.1 p.2) speed)) := by
    rw [show build_travel_matrix cands custs speed true (PgOutcome.results q)
        = (List.range cands.length).flatMap (fun a =>
            (List.range custs.length).map (fun b =>
              ((a, b), postgisEntry (q a b) speed))) from rfl]
    exact nested_entries_eq_map _ _ _
  have hfind : matrixLookup (build_travel_matrix cands custs speed true
      (PgOutcome.results q)) i j = some (postgisEntry (q i j) speed) := by
    rw [hmat, matrixLookup,
      find?_keyed_map _ (fun p => postgisEntry (q p.1 p.2) speed) (i, j)
        (mem_pair_keys _ _ i j hi hj)]
    rfl
  have hzero : postgisEntry (q i j) speed = 0 := by
    rw [hq, postgisEntry]
    simp
  refine ⟨by rw [hfind, hzero], ?_⟩
  intro M hM t ht
  rw [hfind, hzero] at ht
  have : (0 : ℝ) = t := Option.some_inj.mp ht
  rw [← this]
  exact hM

/-- Witness for C9: in a one-site, one-customer matrix whose only pair
query returns NULL, the entry is 0 and stays within any non-negative bound. -/
theorem postgis_null_pair_gives_zero_witness :
    (0 < coordOne.length ∧ 0 < coordOne.length
        ∧ (fun _ _ => (none : Option ℝ)) 0 0 = (none : Option ℝ))
      ∧ (matrixLookup (build_travel_matrix coordOne coordOne 30 true
            (PgOutcome.results (fun _ _ => none))) 0 0 = some 0
          ∧ ∀ M : ℝ, 0 ≤ M → ∀ t : ℝ,
              matrixLookup (build_travel_matrix coordOne coordOne 30 true
                (PgOutcome.results (fun _ _ => none))) 0 0 = some t → t ≤ M) :=
  ⟨⟨by decide, by decide, rfl⟩,
    postgis_null_pair_gives_zero coordOne coordOne 30 (fun _ _ => none) 0 0
      (by decide) (by decide) rfl⟩

/-- C10: when either dataframe argument is None, `solve_darkstores` falls
back to the module-level STATE: with both keys present it solves over that
data (same result as passing the STATE data explicitly); otherwise it
raises ValueError immediately. -/
theorem state_fallback_behavior (state : GlobalState)
    (cd : Option (List Cand)) (ud : Option (List Cust)) (M cap : ℚ)
    (travel : Nat → Nat → ℚ) (vy : Nat → ℚ) (vx : Nat → Nat → ℚ)
    (hnone : cd = none ∨ ud = none) :
    (∀ cs us, state.candidates = some cs → state.customers = some us →
        solve_darkstores state cd ud M cap travel vy vx
          = solve_darkstores state (some cs) (some us) M cap travel vy vx)
      ∧ ((state.candidates = none ∨ state.customers = none) →
          solve_darkstores state cd ud M cap travel vy vx
            = Except.error "No data provided or available in STATE.") := by
  have hres : resolveInputs state cd ud
      = (match state.candidates, state.customers with
          | some cs, some us => Except.ok (cs, us)
          | _, _ =>
            Except.error "No data provided or available in STATE.") := by
    rw [resolveInputs, if_pos]
    rcases hnone with rfl | rfl <;> simp
  constructor
  · intro cs us hc hu
    rw [solve_darkstores, solve_darkstores, hres, hc, hu, resolveInputs,
      if_neg (by simp)]
    rfl
  · intro hmiss
    rw [solve_darkstores, hres]
    rcases hmiss with hm | hm
    · rw [hm]
    · rw [hm]
      cases state.candidates <;> rfl

/-- Witness for C10: with both dataframes None and STATE holding one
candidate and one customer, the solve call equals the explicit-data call. -/
theorem state_fallback_behavior_witness :
    ((none : Option (List Cand)) = none ∨ (none : Option (List Cust)) = none)
      ∧ ((∀ cs us, stFull.candidates = some cs → stFull.customers = some us →
            solve_darkstores stFull none none 10 200 tZero (fun _ => 1)
                (fun _ _ => 1)
              = solve_darkstores stFull (some cs) (some us) 10 200 tZero
                  (fun _ => 1) (fun _ _ => 1))
          ∧ ((stFull.candidates = none ∨ stFull.customers = none) →
              solve_darkstores stFull none none 10 200 tZero (fun _ => 1)
                  (fun _ _ => 1)
                = Except.error "No data provided or available in STATE.")) :=
  ⟨Or.inl rfl,
    state_fallback_behavior stFull none none 10 200 tZero (fun _ => 1)
      (fun _ _ => 1) (Or.inl rfl)⟩

/-- C8 (amended): with both dataframes passed explicitly,
`solve_darkstores` validates nothing beyond emptiness — it returns a plan
exactly when both datasets are non-empty, for every `max_time_min`,
`store_capacity`, demand and fixed-cost value, violating or not. -/
theorem validation_only_checks_presence (state : GlobalState)
    (c : List Cand) (u : List Cust) (M cap : ℚ) (travel : Nat → Nat → ℚ)
    (vy : Nat → ℚ) (vx : Nat → Nat → ℚ) :
    isOkE (solve_darkstores state (some c) (some u) M cap travel vy vx)
      = (!c.isEmpty && !u.isEmpty) := by
  rw [solve_darkstores, resolveInputs, if_neg (by simp)]
  cases hc : c.isEmpty <;> cases hu : u.isEmpty <;>
    simp [isOkE, hc, hu]

/-- C8 counterexample: an input violating several of the spec's
preconditions at once (negative fixed cost, negative demand,
`max_time_min = 0`, negative `store_capacity`) is accepted and produces a
plan; no `InvalidInputError` is raised. -/
theorem invalid_inputs_accepted :
    isOkE (solve_darkstores stEmpty (some [candBad]) (some [custBad]) 0 (-5)
      tZero (fun _ => 1) (fun _ _ => 1)) = true := rfl

/-- C2 (amended): `solve_darkstores` has no infeasibility error path: every
call either raises one of the two ValueError messages (missing data, empty
dataset) or returns a plan built from whatever variable values the external
solver reported — no solver status is inspected. -/
theorem solve_has_no_infeasibility_error (state : GlobalState)
    (cd : Option (List Cand)) (ud : Option (List Cust)) (M cap : ℚ)
    (travel : Nat → Nat → ℚ) (vy : Nat → ℚ) (vx : Nat → Nat → ℚ) :
    solve_darkstores state cd ud M cap travel vy vx
        = Except.error "No data provided or available in STATE."
      ∨ solve_darkstores state cd ud M cap travel vy vx
        = Except.error "Candidate or customer dataset is empty."
      ∨ isOkE (solve_darkstores state cd ud M cap travel vy vx) = true := by
  rcases resolveInputs_cases state cd ud with h | ⟨c, u, h⟩
  · left
    rw [solve_darkstores, h]
  · by_cases he : (c.isEmpty || u.isEmpty) = true
    · right; left
      simp only [solve_darkstores, h]
      rw [if_pos he]
    · right; right
      simp only [solve_darkstores, h]
      rw [if_neg he]
      rfl

/-- C2 counterexample: a concretely infeasible model (single site-customer
pair with travel time 5 and `max_time_min = 1`, so exactly-one and coverage
gating contradict) on which `solve_darkstores` still returns a successful
plan with an empty assignments list instead of any infeasibility error. -/
theorem infeasible_input_returns_ok_plan :
    toyInfeasible
      ∧ isOkE (solve_darkstores stEmpty (some [candA]) (some [custA]) 1 200
          tFive (fun _ => 0) (fun _ _ => 0)) = true
      ∧ assignmentsOf (solve_darkstores stEmpty (some [candA]) (some [custA])
          1 200 tFive (fun _ => 0) (fun _ _ => 0)) = [] := by
  refine ⟨?_, rfl, ?_⟩
  · intro y x h
    obtain ⟨h1, h2, _, _⟩ := h
    have hsum : qsum 1 (fun i => bq (x i 0)) = 1 := h1 0 (by decide)
    have hcov : coverable tFive 1 0 0 = false := by
      norm_num [coverable, tFive]
    have hx0 : bq (x 0 0) = 0 := h2 0 (by decide) 0 (by decide) hcov
    rw [qsum] at hsum
    simp only [List.range_succ, List.range_zero, List.nil_append,
      List.map_cons, List.map_nil, List.sum_cons, List.sum_nil,
      add_zero] at hsum
    rw [hx0] at hsum
    norm_num at hsum
  · norm_num [solve_darkstores, resolveInputs, assignmentsOf,
      extractAssignments, firstAssigned, gtHalf, List.range_succ,
      List.find?]

/-- C1 (amended): when the 0.5-rounded solver-reported values satisfy the
model constraints, every customer appears in exactly one entry of the
extracted assignments list — the extracted customer ids are exactly the
customer column, in order. -/
theorem extraction_exactly_one_per_customer (c : List Cand) (u : List Cust)
    (travel : Nat → Nat → ℚ) (M cap : ℚ) (vy : Nat → ℚ) (vx : Nat → Nat → ℚ)
    (h : modelConstraints c.length u.length travel M cap
      (fun j => (nthCust u j).demand) (roundedOpen vy) (roundedAssign vx)) :
    (extractAssignments c u travel vx).map Assignment.customer_id
      = u.map Cust.id := by
  obtain ⟨h1, _, _, _⟩ := h
  have hex : ∀ j ∈ List.range u.length,
      (firstAssigned c.length vx j).isSome = true := by
    intro j hj
    have hsum := h1 j hj
    rw [qsum, sum_bq_eq_filter_length] at hsum
    have hlen : ((List.range c.length).filter
        (fun i => roundedAssign vx i j)).length = 1 := by
      exact_mod_cast hsum
    obtain ⟨a, ha⟩ := List.length_eq_one.mp hlen
    have ham : a ∈ (List.range c.length).filter
        (fun i => roundedAssign vx i j) := by
      rw [ha]
      exact List.mem_cons_self a []
    obtain ⟨ham2, hpa⟩ := List.mem_filter.mp ham
    exact find?_isSome_of_mem _ _ a ham2 hpa
  have hsome : ∀ j ∈ List.range u.length,
      (firstAssigned c.length vx j).map (mkAssignment c u travel j)
        = some (mkAssignment c u travel j
            ((firstAssigned c.length vx j).getD 0)) := by
    intro j hj
    obtain ⟨i, hi⟩ := Option.isSome_iff_exists.mp (hex j hj)
    rw [hi]
    simp
  rw [extractAssignments,
    filterMap_eq_map_of_forall_some _ _
      (fun j => mkAssignment c u travel j
        ((firstAssigned c.length vx j).getD 0)) hsome,
    List.map_map, map_eq_range_getD u Cust.id default]
  rfl

/-- Witness for C1: a one-site, one-customer instance whose reported values
(1 everywhere) satisfy the constraints after rounding; the extracted
customer ids equal the customer column. -/
theorem extraction_exactly_one_per_customer_witness :
    modelConstraints [candA].length [custA].length tZero 10 200
        (fun j => (nthCust [custA] j).demand) (roundedOpen (fun _ => 1))
        (roundedAssign (fun _ _ => 1))
      ∧ (extractAssignments [candA] [custA] tZero (fun _ _ => 1)).map
          Assignment.customer_id = [custA].map Cust.id := by
  have hc : modelConstraints [candA].length [custA].length tZero 10 200
      (fun j => (nthCust [custA] j).demand) (roundedOpen (fun _ => 1))
      (roundedAssign (fun _ _ => 1)) := by
    refine ⟨?_, ?_, ?_, ?_⟩
    · intro j hj
      norm_num [qsum, List.range_succ, bq, roundedAssign, gtHalf]
    · intro i hi j hj hcov
      exfalso
      revert hcov
      norm_num [coverable, tZero]
    · intro i hi j hj
      norm_num [bq, roundedAssign, roundedOpen, gtHalf]
    · intro i hi
      norm_num [qsum, List.range_succ, nthCust, custA, bq, roundedAssign,
        roundedOpen, gtHalf]
  exact ⟨hc, extraction_exactly_one_per_customer [candA] [custA] tZero 10 200
    (fun _ => 1) (fun _ _ => 1) hc⟩

/-- C1 counterexample: the extractor performs no defensive verification —
with two realized assignments reported for the single customer it silently
keeps the first (one entry, no error), and the solve call still returns a
plan. -/
theorem extractor_silent_on_multiple_realized :
    roundedAssign (fun _ _ => 1) 0 0 = true
      ∧ roundedAssign (fun _ _ => 1) 1 0 = true
      ∧ (extractAssignments [candA, candB] [custA] tZero
          (fun _ _ => 1)).length = 1
      ∧ isOkE (solve_darkstores stEmpty (some [candA, candB]) (some [custA])
          10 200 tZero (fun _ => 1) (fun _ _ => 1)) = true := by
  refine ⟨?_, ?_, ?_, rfl⟩
  · norm_num [roundedAssign, gtHalf]
  · norm_num [roundedAssign, gtHalf]
  · norm_num [extractAssignments, firstAssigned, gtHalf, List.range_succ,
      List.find?]
    simp [List.filterMap_cons]

/-- C3: the coverage mask is exactly the inclusive comparison
`travel[(i,j)] ≤ max_time_min` (boundary covered), and under the model
constraints every extracted assignment's `travel_min` is at most
`max_time_min`. -/
theorem coverage_mask_and_travel_bound (c : List Cand) (u : List Cust)
    (travel : Nat → Nat → ℚ) (M cap : ℚ) (vy : Nat → ℚ) (vx : Nat → Nat → ℚ)
    (h : modelConstraints c.length u.length travel M cap
      (fun j => (nthCust u j).demand) (roundedOpen vy) (roundedAssign vx)) :
    (∀ i j, coverable travel M i j = true ↔ travel i j ≤ M)
      ∧ ∀ a ∈ extractAssignments c u travel vx, a.travel_min ≤ M := by
  obtain ⟨_, h2, _, _⟩ := h
  refine ⟨fun i j => by simp [coverable], ?_⟩
  intro a ha
  rw [extractAssignments] at ha
  obtain ⟨j, hj, hsome⟩ := List.mem_filterMap.mp ha
  cases hfind : firstAssigned c.length vx j with
  | none =>
    rw [hfind] at hsome
    simp at hsome
  | some i =>
    rw [hfind] at hsome
    rw [Option.map_some'] at hsome
    have hai : a = mkAssignment c u travel j i := (Option.some_inj.mp hsome).symm
    rw [firstAssigned] at hfind
    have hpi := List.find?_some hfind
    have him : i ∈ List.range c.length := List.mem_of_find?_eq_some hfind
    have hcov : coverable travel M i j = true := by
      by_contra hfalse
      have h0 : bq (roundedAssign vx i j) = 0 :=
        h2 i him j hj (Bool.not_eq_true _ ▸ hfalse)
      rw [show roundedAssign vx i j = true from hpi] at h0
      norm_num [bq] at h0
    have hle : travel i j ≤ M := by simpa [coverable] using hcov
    rw [hai]
    exact hle

/-- Witness for C3: the one-site, one-customer feasible instance; the mask
equivalence holds and the single extracted assignment is within the bound. -/
theorem coverage_mask_and_travel_bound_witness :
    modelConstraints [candA].length [custA].length tZero 10 200
        (fun j => (nthCust [custA] j).demand) (roundedOpen (fun _ => 1))
        (roundedAssign (fun _ _ => 1))
      ∧ ((∀ i j, coverable tZero 10 i j = true ↔ tZero i j ≤ 10)
          ∧ ∀ a ∈ extractAssignments [candA] [custA] tZero (fun _ _ => 1),
              a.travel_min ≤ 10) := by
  have hc : modelConstraints [candA].length [custA].length tZero 10 200
      (fun j => (nthCust [custA] j).demand) (roundedOpen (fun _ => 1))
      (roundedAssign (fun _ _ => 1)) := by
    refine ⟨?_, ?_, ?_, ?_⟩
    · intro j hj
      norm_num [qsum, List.range_succ, bq, roundedAssign, gtHalf]
    · intro i hi j hj hcov
      exfalso
      revert hcov
      norm_num [coverable, tZero]
    · intro i hi j hj
      norm_num [bq, roundedAssign, roundedOpen, gtHalf]
    · intro i hi
      norm_num [qsum, List.range_succ, nthCust, custA, bq, roundedAssign,
        roundedOpen, gtHalf]
  exact ⟨hc, coverage_mask_and_travel_bound [candA] [custA] tZero 10 200
    (fun _ => 1) (fun _ _ => 1) hc⟩

/-- C4: the model imposes, for every site, the capacity inequality
`Σ_j demand[j]·assign[i,j] ≤ store_capacity·open[i]`; consequently a
closed site carries exactly zero assigned demand (via the open-gating
constraint) and an open site carries at most `store_capacity`. -/
theorem capacity_constraint_consequences (c : List Cand) (u : List Cust)
    (travel : Nat → Nat → ℚ) (M cap : ℚ) (vy : Nat → ℚ) (vx : Nat → Nat → ℚ)
    (h : modelConstraints c.length u.length travel M cap
      (fun j => (nthCust u j).demand) (roundedOpen vy) (roundedAssign vx)) :
    ∀ i ∈ List.range c.length,
      (qsum u.length (fun j =>
          (nthCust u j).demand * bq (roundedAssign vx i j))
        ≤ cap * bq (roundedOpen vy i))
      ∧ (roundedOpen vy i = false →
          qsum u.length (fun j =>
            (nthCust u j).demand * bq (roundedAssign vx i j)) = 0)
      ∧ (roundedOpen vy i = true →
          qsum u.length (fun j =>
            (nthCust u j).demand * bq (roundedAssign vx i j)) ≤ cap) := by
  obtain ⟨_, _, h3, h4⟩ := h
  intro i hi
  refine ⟨h4 i hi, ?_, ?_⟩
  · intro hclosed
    refine qsum_eq_zero_of_forall _ _ (fun j hj => ?_)
    have hle := h3 i hi j hj
    rw [hclosed] at hle
    have hz : bq (roundedAssign vx i j) = 0 :=
      le_antisymm (by simpa [bq] using hle) (bq_nonneg _)
    rw [hz, mul_zero]
  · intro hopen
    have hcap := h4 i hi
    rw [hopen] at hcap
    simpa [bq] using hcap

/-- Witness for C4: the feasible one-site, one-customer instance; the open
site carries demand 1, within capacity 200. -/
theorem capacity_constraint_consequences_witness :
    modelConstraints [candA].length [custA].length tZero 10 200
        (fun j => (nthCust [custA] j).demand) (roundedOpen (fun _ => 1))
        (roundedAssign (fun _ _ => 1))
      ∧ ∀ i ∈ List.range [candA].length,
          (qsum [custA].length (fun j =>
              (nthCust [custA] j).demand
                * bq (roundedAssign (fun _ _ => 1) i j))
            ≤ 200 * bq (roundedOpen (fun _ => 1) i))
          ∧ (roundedOpen (fun _ => 1) i = false →
              qsum [custA].length (fun j =>
                (nthCust [custA] j).demand
                  * bq (roundedAssign (fun _ _ => 1) i j)) = 0)
          ∧ (roundedOpen (fun _ => 1) i = true →
              qsum [custA].length (fun j =>
                (nthCust [custA] j).demand
                  * bq (roundedAssign (fun _ _ => 1) i j)) ≤ 200) := by
  have hc : modelConstraints [candA].length [custA].length tZero 10 200
      (fun j => (nthCust [custA] j).demand) (roundedOpen (fun _ => 1))
      (roundedAssign (fun _ _ => 1)) := by
    refine ⟨?_, ?_, ?_, ?_⟩
    · intro j hj
      norm_num [qsum, List.range_succ, bq, roundedAssign, gtHalf]
    · intro i hi j hj hcov
      exfalso
      revert hcov
      norm_num [coverable, tZero]
    · intro i hi j hj
      norm_num [bq, roundedAssign, roundedOpen, gtHalf]
    · intro i hi
      norm_num [qsum, List.range_succ, nthCust, custA, bq, roundedAssign,
        roundedOpen, gtHalf]
  exact ⟨hc, capacity_constraint_consequences [candA] [custA] tZero 10 200
    (fun _ => 1) (fun _ _ => 1) hc⟩

end GeoOptima
